import Mathlib

/-!
Verification of the solar-system simulation (`solar_system.py`).

The Python program is shallowly embedded over the reals: Python floats
become `ℝ`, Python lists become `List`, the mutable body objects become a
`CelestialBody` record threaded explicitly, and the `parent` object
reference becomes an index into the system's body list (parents are
inserted before their children, so a child reading `parent.x` during the
in-place update loop sees the parent's already-updated position, which the
index-into-current-list model reproduces exactly).  `pygame` surfaces are
modelled by the data used to build them (dimensions, polyline, line
width); catalog facts, colors and text rendering do not bear on any
verified property and are represented only where a claim mentions them.
-/

noncomputable section

namespace SolarSim

/-- Python `x % m` on floats for `m > 0` (result in `[0, m)`), used in
`CelestialBody.update` as `% (2 * math.pi)`. -/
def fmod (x m : ℝ) : ℝ := x - m * ⌊x / m⌋

/-- `math.atan2 y x`, embedded as the argument of the complex number
`x + y*i` (same range `(-π, π]` and same quadrant conventions). -/
def atan2 (y x : ℝ) : ℝ := Complex.arg ⟨x, y⟩

/-- Python `int(x)`: truncation toward zero. -/
def intTrunc (x : ℝ) : ℤ := if x < 0 then -⌊-x⌋ else ⌊x⌋

/-- Minimum of a list of reals (Python `min` over a nonempty list;
the `[]` case never arises in the embedded code). -/
def listMin : List ℝ → ℝ
  | [] => 0
  | x :: xs => xs.foldl min x

/-- Maximum of a list of reals (Python `max` over a nonempty list). -/
def listMax : List ℝ → ℝ
  | [] => 0
  | x :: xs => xs.foldl max x

/-- The cached orbit surface: stands for the `pygame.Surface` built in
`update_orbit_surface` (lines 124–132), recorded as the data that
determines the drawn pixels: box dimensions, the local polyline and the
line width (the color `(50, 50, 50, 64)` is a constant). -/
structure OrbitSurface where
  boxWidth : ℤ
  boxHeight : ℤ
  localPoints : List (ℝ × ℝ)
  lineWidth : ℕ


/-- A `pygame.Rect` (line 125). -/
structure Rect where
  x : ℤ
  y : ℤ
  w : ℤ
  h : ℤ


/-- The `CelestialBody` dataclass (lines 44–69).  `parent` is an index
into the owning system's `bodies` list (`none` for the root); `color`,
`facts` and the label/facts surfaces are omitted: no verified claim
mentions them. -/
structure CelestialBody where
  x : ℝ
  y : ℝ
  radius : ℝ
  semi_major_axis : ℝ
  eccentricity : ℝ
  angle : ℝ
  base_orbit_speed : ℝ
  orbit_speed : ℝ
  parent : Option ℕ := none
  name : String := ""
  mass : ℝ := 0
  orbit_surface : Option OrbitSurface := none
  orbit_rect : Option Rect := none
  orbit_points : Option (List (ℝ × ℝ)) := none
  one_minus_e2 : ℝ := 0
  last_zoom : ℝ := 0
  last_width : ℕ := 0
  last_height : ℕ := 0
  last_view_x : ℝ := 0
  last_view_y : ℝ := 0

instance : Inhabited CelestialBody :=
  ⟨{ x := 0, y := 0, radius := 0, semi_major_axis := 0, eccentricity := 0,
     angle := 0, base_orbit_speed := 0, orbit_speed := 0 }⟩

namespace CelestialBody

/-- The Kepler fixed-point loop of `CelestialBody.update` (lines 75–77):
`E = M`, then `n` passes of `E = M + e * sin(E)`. -/
def keplerIter (M e : ℝ) : ℕ → ℝ
  | 0 => M
  | n + 1 => M + e * Real.sin (keplerIter M e n)

/-- The eccentric anomaly the code computes: exactly 5 iterations. -/
def keplerE (M e : ℝ) : ℝ := keplerIter M e 5

/-- True anomaly from eccentric anomaly (line 80):
`nu = 2 * atan2(sqrt(1+e) * sin(E/2), sqrt(1-e) * cos(E/2))`. -/
def trueAnomaly (e E : ℝ) : ℝ :=
  2 * atan2 (Real.sqrt (1 + e) * Real.sin (E / 2))
      (Real.sqrt (1 - e) * Real.cos (E / 2))

/-- Orbit radius (line 81):
`r = semi_major_axis * one_minus_e2 / (1 + eccentricity * cos(nu))`. -/
def orbitRadius (a ome2 e nu : ℝ) : ℝ := a * ome2 / (1 + e * Real.cos nu)

/-- Lines 74–83 of `update`: the position resolved from mean anomaly `M`
and the parent's current position `(px, py)`. -/
def resolvePos (b : CelestialBody) (M px py : ℝ) : ℝ × ℝ :=
  let E := keplerE M b.eccentricity
  let nu := trueAnomaly b.eccentricity E
  let r := orbitRadius b.semi_major_axis b.one_minus_e2 b.eccentricity nu
  (px + r * Real.cos nu, py + r * Real.sin nu)

/-- `CelestialBody.update` (lines 71–83).  `parentPos` is the parent's
current `(x, y)` (`none` when `self.parent` is `None`); the caller
resolves the parent reference against the live body list, as Python's
attribute access does. -/
def update (b : CelestialBody) (parentPos : Option (ℝ × ℝ)) : CelestialBody :=
  let angle' := fmod (b.angle + b.orbit_speed) (2 * Real.pi)
  match parentPos with
  | none => { b with angle := angle' }
  | some (px, py) =>
      let p := resolvePos b angle' px py
      { b with angle := angle', x := p.1, y := p.2 }

/-- The cache-validity test of `update_orbit_surface` (lines 88–93): a
surface is already built, zoom moved less than `0.01`, the viewport
dimensions are unchanged, and the pan moved less than `1` world unit on
each axis. -/
def cacheValid (b : CelestialBody) (zoom : ℝ) (view_x view_y : ℝ)
    (width height : ℕ) : Prop :=
  b.orbit_surface.isSome = true ∧
  |zoom - b.last_zoom| < 0.01 ∧
  width = b.last_width ∧
  height = b.last_height ∧
  |view_x - b.last_view_x| < 1 ∧
  |view_y - b.last_view_y| < 1

open Classical in
/-- `CelestialBody.update_orbit_surface` (lines 85–132).  `px, py` stand
for `self.parent.x, self.parent.y` (read on lines 109–110; unused when
`self.parent` is `None`, in which case the method returns immediately).
Python `int()` is truncation toward zero and `width // 2` is natural
division. -/
def update_orbit_surface (b : CelestialBody) (zoom view_x view_y : ℝ)
    (width height : ℕ) (px py : ℝ) : CelestialBody :=
  if b.parent = none then b
  else if cacheValid b zoom view_x view_y width height then b
  else
    let bAxis := b.semi_major_axis * Real.sqrt b.one_minus_e2
    let pts := (List.range 30).map (fun t =>
      let theta := 2 * Real.pi * t / 29
      (b.semi_major_axis * Real.cos theta, bAxis * Real.sin theta))
    let screenPts := pts.map (fun q =>
      ((q.1 + px - view_x) * zoom + (width / 2 : ℕ),
       (q.2 + py - view_y) * zoom + (height / 2 : ℕ)))
    let xs := screenPts.map Prod.fst
    let ys := screenPts.map Prod.snd
    let minX := listMin xs
    let maxX := listMax xs
    let minY := listMin ys
    let maxY := listMax ys
    let boxW := max 1 (min (intTrunc (maxX - minX) + 2) (width : ℤ))
    let boxH := max 1 (min (intTrunc (maxY - minY) + 2) (height : ℤ))
    let localPts := screenPts.map (fun q => (q.1 - minX, q.2 - minY))
    let lw : ℕ := if b.semi_major_axis > 10 then 2 else 1
    { b with
      last_zoom := zoom, last_width := width, last_height := height,
      last_view_x := view_x, last_view_y := view_y,
      orbit_points := some pts,
      orbit_surface := some ⟨boxW, boxH, localPts, lw⟩,
      orbit_rect := some ⟨intTrunc minX, intTrunc minY, boxW, boxH⟩ }

end CelestialBody

/-- The `SolarSystem` class (lines 188–242).  `stars`, `planets`, `moons`
are kept as index lists into `bodies` (Python holds aliases of the same
objects; an index faithfully models an alias under in-place update). -/
structure SolarSystem where
  bodies : List CelestialBody := []
  stars : List ℕ := []
  planets : List ℕ := []
  moons : List ℕ := []
  time_factor : ℝ := 1

namespace SolarSystem

/-- The body built by `add_star` (lines 196–204). -/
def mkStar (x y radius : ℝ) (name : String) (mass : ℝ) : CelestialBody :=
  { x := x, y := y, radius := radius,
    semi_major_axis := 0, eccentricity := 0, angle := 0,
    base_orbit_speed := 0, orbit_speed := 0,
    name := name, mass := mass, one_minus_e2 := 1 }

/-- `SolarSystem.add_star`. -/
def add_star (s : SolarSystem) (x y radius : ℝ) (name : String)
    (mass : ℝ) : SolarSystem :=
  { s with bodies := s.bodies ++ [mkStar x y radius name mass],
           stars := s.stars ++ [s.bodies.length] }

/-- The body built by `add_planet` (lines 206–217).  `parentIdx` is the
index of `parent` in the system, `parent` the referenced body; `angle`
stands for the `random.uniform(0, 2 * math.pi)` draw, injected so runs
are reproducible. -/
def mkPlanet (parentIdx : ℕ) (parent : CelestialBody)
    (semi_major_axis radius orbit_speed eccentricity : ℝ)
    (name : String) (mass : ℝ) (angle : ℝ) : CelestialBody :=
  { x := parent.x, y := parent.y, radius := radius,
    semi_major_axis := semi_major_axis, eccentricity := eccentricity,
    angle := angle,
    base_orbit_speed := orbit_speed, orbit_speed := orbit_speed,
    parent := some parentIdx, name := name, mass := mass,
    one_minus_e2 := 1 - eccentricity * eccentricity }

/-- `SolarSystem.add_planet`. -/
def add_planet (s : SolarSystem) (parentIdx : ℕ)
    (semi_major_axis radius orbit_speed eccentricity : ℝ)
    (name : String) (mass : ℝ) (angle : ℝ) : SolarSystem :=
  let parent := s.bodies.getD parentIdx default
  { s with
    bodies := s.bodies ++ [mkPlanet parentIdx parent semi_major_axis radius
        orbit_speed eccentricity name mass angle],
    planets := s.planets ++ [s.bodies.length] }

/-- The body built by `add_moon` (lines 219–232), including the
minimum-orbit clamp of lines 222–223:
`min_orbit = parent.radius * 2 if parent.name != "Sun" else semi_major_axis`,
then `semi_major_axis = max(semi_major_axis, min_orbit)`. -/
def mkMoon (parentIdx : ℕ) (parent : CelestialBody)
    (semi_major_axis radius orbit_speed eccentricity : ℝ)
    (name : String) (mass : ℝ) (angle : ℝ) : CelestialBody :=
  let minOrbit := if parent.name ≠ "Sun" then parent.radius * 2
                  else semi_major_axis
  let a := max semi_major_axis minOrbit
  { x := parent.x, y := parent.y, radius := radius,
    semi_major_axis := a, eccentricity := eccentricity,
    angle := angle,
    base_orbit_speed := orbit_speed, orbit_speed := orbit_speed,
    parent := some parentIdx, name := name, mass := mass,
    one_minus_e2 := 1 - eccentricity * eccentricity }

/-- `SolarSystem.add_moon`. -/
def add_moon (s : SolarSystem) (parentIdx : ℕ)
    (semi_major_axis radius orbit_speed eccentricity : ℝ)
    (name : String) (mass : ℝ) (angle : ℝ) : SolarSystem :=
  let parent := s.bodies.getD parentIdx default
  { s with
    bodies := s.bodies ++ [mkMoon parentIdx parent semi_major_axis radius
        orbit_speed eccentricity name mass angle],
    moons := s.moons ++ [s.bodies.length] }

/-- The body of the `for body in self.bodies` loop of
`SolarSystem.update` (lines 234–238) for one body `b`: set `orbit_speed`
from `base_orbit_speed * time_factor` when the body has a parent, then
run `body.update()` reading the parent's current position out of the
current (partially updated) list `l`. -/
def stepBodyAt (tf : ℝ) (l : List CelestialBody) (b : CelestialBody) :
    CelestialBody :=
  let b1 := if b.parent.isSome then
      { b with orbit_speed := b.base_orbit_speed * tf } else b
  b1.update (b1.parent.bind (fun j => (l.get? j).map (fun p => (p.x, p.y))))

/-- One iteration of the update loop, acting in place on index `i`. -/
def sysStep (tf : ℝ) (l : List CelestialBody) (i : ℕ) : List CelestialBody :=
  match l.get? i with
  | none => l
  | some b => l.set i (stepBodyAt tf l b)

/-- `SolarSystem.update` (lines 234–238): the in-place loop over the body
list in insertion order. -/
def update (s : SolarSystem) : SolarSystem :=
  { s with bodies := (List.range s.bodies.length).foldl (sysStep s.time_factor) s.bodies }

end SolarSystem

/-- One tick of the frame loop as far as the simulation is concerned
(lines 1181–1182): `if not paused: solar_system.update()`. -/
def frameStep (paused : Bool) (s : SolarSystem) : SolarSystem :=
  if paused then s else s.update

/-- `world_to_screen` as performed by `CelestialBody.draw` (lines
153–155) and the click hit-test (lines 1160–1161):
`((x - view_x) * zoom + width // 2, (y - view_y) * zoom + height // 2)`. -/
def worldToScreen (zoom view_x view_y : ℝ) (width height : ℕ)
    (p : ℝ × ℝ) : ℝ × ℝ :=
  ((p.1 - view_x) * zoom + (width / 2 : ℕ),
   (p.2 - view_y) * zoom + (height / 2 : ℕ))

/-- The inverse transform implied by the drag-panning code (lines
1176–1178): a screen offset divided by zoom is a world offset. -/
def screenToWorld (zoom view_x view_y : ℝ) (width height : ℕ)
    (q : ℝ × ℝ) : ℝ × ℝ :=
  ((q.1 - (width / 2 : ℕ)) / zoom + view_x,
   (q.2 - (height / 2 : ℕ)) / zoom + view_y)

/-- A moon record of the static catalog in `create_real_solar_system`,
restricted to the fields the verified claims mention (the orbital
period; the name identifies the entry). -/
structure CatalogMoon where
  name : String
  orbital_period : ℚ

/-- An entry of the `planets` catalog list in `create_real_solar_system`
(lines 251–1045), restricted to name, orbital period and moons. -/
structure CatalogEntry where
  name : String
  orbital_period : ℚ
  moons : List CatalogMoon := []

/-- The `planets` catalog of `create_real_solar_system`, entry 0 being
the Sun, exactly as written in lines 251–1045 (periods in days; Triton's
is negative for its retrograde orbit; the second Haumea moon's
typographic apostrophe is elided from its name). -/
def realCatalog : List CatalogEntry := [
  ⟨"Sun", 0, []⟩,
  ⟨"Mercury", 87.97, []⟩,
  ⟨"Venus", 224.70, []⟩,
  ⟨"Earth", 365.26, []⟩,
  ⟨"Mars", 686.98, [⟨"Phobos", 0.319⟩, ⟨"Deimos", 1.263⟩]⟩,
  ⟨"Jupiter", 4332.59,
    [⟨"Io", 1.769⟩, ⟨"Europa", 3.551⟩, ⟨"Ganymede", 7.155⟩,
     ⟨"Callisto", 16.689⟩]⟩,
  ⟨"Saturn", 10759.22,
    [⟨"Mimas", 0.942⟩, ⟨"Enceladus", 1.370⟩, ⟨"Tethys", 1.888⟩,
     ⟨"Dione", 2.737⟩, ⟨"Rhea", 4.518⟩, ⟨"Titan", 15.945⟩,
     ⟨"Iapetus", 79.330⟩]⟩,
  ⟨"Uranus", 30589.00,
    [⟨"Miranda", 1.413⟩, ⟨"Ariel", 2.520⟩, ⟨"Umbriel", 4.144⟩,
     ⟨"Titania", 8.706⟩, ⟨"Oberon", 13.463⟩]⟩,
  ⟨"Neptune", 59800.00, [⟨"Triton", -5.877⟩]⟩,
  ⟨"Pluto", 90560,
    [⟨"Charon", 6.387⟩, ⟨"Nix", 24.854⟩, ⟨"Hydra", 38.202⟩,
     ⟨"Kerberos", 32.167⟩, ⟨"Styx", 20.161⟩]⟩,
  ⟨"Eris", 203670, [⟨"Dysnomia", 15.774⟩]⟩,
  ⟨"Haumea", 103660, [⟨"Hiiaka", 49.12⟩, ⟨"Namaka", 18.28⟩]⟩,
  ⟨"Makemake", 111690, []⟩,
  ⟨"Quaoar", 105120, [⟨"Weywot", 12.438⟩]⟩,
  ⟨"Orcus", 89425, [⟨"Vanth", 9.54⟩]⟩,
  ⟨"Ceres", 1680, []⟩,
  ⟨"Gonggong", 202210, [⟨"Xiangliu", 25.2⟩]⟩,
  ⟨"Sedna", 4161000, []⟩,
  ⟨"Salacia", 100010, [⟨"Actaea", 5.493⟩]⟩]

/-- `base_speed = 2 * math.pi / base_frames` with `base_frames = 3600`
(lines 1058–1059). -/
def base_speed : ℝ := 2 * Real.pi / 3600

/-- `earth_period = 365.26` (line 1057). -/
def earth_period : ℝ := 365.26

/-- The planet angular speed of line 1066:
`base_speed * (earth_period / period_days) if period_days > 0 else 0`.
The period is carried exactly (as a rational) so the branch condition is
the one the code tests. -/
def planetOrbitSpeed (period_days : ℚ) : ℝ :=
  if 0 < period_days then base_speed * (earth_period / (period_days : ℝ))
  else 0

/-- The moon angular speed of line 1087:
`base_speed * (earth_period / abs(moon_period)) * (-1 if moon_period < 0 else 1)`
(no zero-period special case exists on this path). -/
def moonOrbitSpeed (moon_period : ℚ) : ℝ :=
  base_speed * (earth_period / |(moon_period : ℝ)|) *
    (if moon_period < 0 then -1 else 1)

/-! Concrete sample scenes used to exercise the theorems below. -/

/-- A star at the origin with radius 5, as in the end-to-end scenario. -/
def c9Star : CelestialBody := SolarSystem.mkStar 0 0 5 "Sun" 0

/-- A circular planet `a = 100, e = 0` around `c9Star`, with mean anomaly
`π` and zero speed so that the update step sees mean anomaly exactly `π`. -/
def c9Planet : CelestialBody := SolarSystem.mkPlanet 0 c9Star 100 3 0 0 "Planet" 0 Real.pi

/-- The same planet with mean anomaly `0`, used as a generic orbiter. -/
def sampleOrbiter : CelestialBody := SolarSystem.mkPlanet 0 c9Star 100 3 0 0 "Planet" 0 0

/-- A non-root parent body (a planet named `Mars`, radius 10). -/
def sampleParent : CelestialBody := SolarSystem.mkPlanet 0 c9Star 50 10 0.1 0 "Mars" 0 0

/-- A two-body scene as `create_real_solar_system` would build it, before
any update: the planet still sits at its parent's position. -/
def freshSystem : SolarSystem :=
  { bodies := [c9Star, SolarSystem.mkPlanet 0 c9Star 100 3 0 0 "Planet" 0 0],
    stars := [0], planets := [1], time_factor := 0 }

/-- Agreement on every field `SolarSystem.update` never writes: the
update loop only ever assigns `orbit_speed`, `angle`, `x` and `y`. -/
def staticEq (b b0 : CelestialBody) : Prop :=
  b.radius = b0.radius ∧ b.semi_major_axis = b0.semi_major_axis ∧
  b.eccentricity = b0.eccentricity ∧ b.base_orbit_speed = b0.base_orbit_speed ∧
  b.parent = b0.parent ∧ b.name = b0.name ∧ b.one_minus_e2 = b0.one_minus_e2

/-- Agreement on mean anomaly, position and the fields feeding them:
what "no body changed" means for claim C7 (plus the static fields needed
to propagate it through the update loop). -/
def simEq (b0 b : CelestialBody) : Prop :=
  b.angle = b0.angle ∧ b.x = b0.x ∧ b.y = b0.y ∧ b.parent = b0.parent ∧
  b.semi_major_axis = b0.semi_major_axis ∧
  b.eccentricity = b0.eccentricity ∧ b.one_minus_e2 = b0.one_minus_e2 ∧
  (b0.parent = none → b.orbit_speed = b0.orbit_speed)

/-- Entry-wise `simEq` between an original body list and a current one. -/
def SimInv (orig cur : List CelestialBody) : Prop :=
  ∀ j : ℕ, (∀ b0, orig.get? j = some b0 → ∃ b, cur.get? j = some b ∧ simEq b0 b) ∧
    (orig.get? j = none → cur.get? j = none)

/-- A steady simulation state: every mean anomaly is in `[0, 2π)` (the
update keeps it there and the constructors draw it there), parentless
bodies have zero orbit speed (as `add_star` builds them), and every
orbiting body's position is the one resolved from its current mean
anomaly and its parent's current position — true of any state the engine
has stepped at least once, but not of a freshly constructed scene. -/
def SolarSystem.steady (s : SolarSystem) : Prop :=
  ∀ i b, s.bodies.get? i = some b →
    (0 ≤ b.angle ∧ b.angle < 2 * Real.pi) ∧
    (b.parent = none → b.orbit_speed = 0) ∧
    (∀ j, b.parent = some j → ∃ p, s.bodies.get? j = some p ∧
      (b.x, b.y) = b.resolvePos b.angle p.x p.y)

/-- A one-star scene that is already steady. -/
def steadySystem : SolarSystem :=
  { bodies := [c9Star], stars := [0], time_factor := 0 }

/-! # Supporting lemmas -/

namespace CelestialBody

/-- `update` with a present parent, written out. -/
theorem update_some (b : CelestialBody) (px py : ℝ) :
    b.update (some (px, py)) =
      { b with angle := fmod (b.angle + b.orbit_speed) (2 * Real.pi),
               x := (b.resolvePos (fmod (b.angle + b.orbit_speed) (2 * Real.pi)) px py).1,
               y := (b.resolvePos (fmod (b.angle + b.orbit_speed) (2 * Real.pi)) px py).2 } :=
  rfl

/-- `update` with no parent only advances the mean anomaly. -/
theorem update_none (b : CelestialBody) :
    b.update none = { b with angle := fmod (b.angle + b.orbit_speed) (2 * Real.pi) } :=
  rfl

/-- The orbit-radius formula stays between the periapsis and apoapsis
distances for any true anomaly. -/
theorem orbitRadius_le (a e ν : ℝ) (ha : 0 < a) (he0 : 0 ≤ e) (he1 : e < 1) :
    a * (1 - e) ≤ orbitRadius a (1 - e * e) e ν ∧
      orbitRadius a (1 - e * e) e ν ≤ a * (1 + e) := by
  have hc1 : Real.cos ν ≤ 1 := Real.cos_le_one ν
  have hc2 : -1 ≤ Real.cos ν := Real.neg_one_le_cos ν
  have he' : e * Real.cos ν ≤ e * 1 := mul_le_mul_of_nonneg_left hc1 he0
  have he'' : e * -1 ≤ e * Real.cos ν := mul_le_mul_of_nonneg_left hc2 he0
  have hd : 0 < 1 + e * Real.cos ν := by nlinarith
  unfold orbitRadius
  constructor
  · rw [le_div_iff₀ hd]
    have h1 : 0 ≤ a * (1 - e) := by nlinarith
    have h2 : 1 + e * Real.cos ν ≤ 1 + e := by nlinarith
    calc a * (1 - e) * (1 + e * Real.cos ν)
        ≤ a * (1 - e) * (1 + e) := mul_le_mul_of_nonneg_left h2 h1
      _ = a * (1 - e * e) := by ring
  · rw [div_le_iff₀ hd]
    have h1 : 0 ≤ a * (1 + e) := by nlinarith
    have h2 : 1 - e ≤ 1 + e * Real.cos ν := by nlinarith
    calc a * (1 - e * e) = a * (1 + e) * (1 - e) := by ring
      _ ≤ a * (1 + e) * (1 + e * Real.cos ν) := mul_le_mul_of_nonneg_left h2 h1

/-- The orbit-radius formula is positive under the element contract. -/
theorem orbitRadius_pos (a e ν : ℝ) (ha : 0 < a) (he0 : 0 ≤ e) (he1 : e < 1) :
    0 < orbitRadius a (1 - e * e) e ν := by
  have hc2 : -1 ≤ Real.cos ν := Real.neg_one_le_cos ν
  have he'' : e * -1 ≤ e * Real.cos ν := mul_le_mul_of_nonneg_left hc2 he0
  have hd : 0 < 1 + e * Real.cos ν := by nlinarith
  have h12 : e * e < 1 := by nlinarith
  exact div_pos (mul_pos ha (by linarith)) hd

/-- The distance from the position `resolvePos` produces to the parent's
position is exactly the computed orbit radius. -/
theorem resolvePos_dist (b : CelestialBody) (M px py : ℝ)
    (hr : 0 ≤ orbitRadius b.semi_major_axis b.one_minus_e2 b.eccentricity
      (trueAnomaly b.eccentricity (keplerE M b.eccentricity))) :
    Real.sqrt (((b.resolvePos M px py).1 - px) ^ 2 +
        ((b.resolvePos M px py).2 - py) ^ 2) =
      orbitRadius b.semi_major_axis b.one_minus_e2 b.eccentricity
        (trueAnomaly b.eccentricity (keplerE M b.eccentricity)) := by
  unfold resolvePos
  set ν := trueAnomaly b.eccentricity (keplerE M b.eccentricity) with hν
  set r := orbitRadius b.semi_major_axis b.one_minus_e2 b.eccentricity ν with hrdef
  have h1 : (px + r * Real.cos ν - px) ^ 2 + (py + r * Real.sin ν - py) ^ 2 = r ^ 2 := by
    have := Real.sin_sq_add_cos_sq ν
    nlinarith [Real.sin_sq_add_cos_sq ν]
  simp only [h1]
  exact Real.sqrt_sq hr

end CelestialBody

/-- Python `%` returns its argument unchanged when it already lies in
`[0, m)`. -/
theorem fmod_eq_self (x m : ℝ) (hm : 0 < m) (h0 : 0 ≤ x) (h1 : x < m) :
    fmod x m = x := by
  unfold fmod
  have hfl : ⌊x / m⌋ = 0 := by
    rw [Int.floor_eq_zero_iff]
    constructor
    · positivity
    · rw [div_lt_one hm]
      exact h1
  rw [hfl]
  simp

/-- `update` never writes the static fields. -/
theorem CelestialBody.update_staticEq (b : CelestialBody)
    (pp : Option (ℝ × ℝ)) : staticEq (b.update pp) b := by
  cases pp with
  | none => exact ⟨rfl, rfl, rfl, rfl, rfl, rfl, rfl⟩
  | some q => cases q with
    | mk px py => exact ⟨rfl, rfl, rfl, rfl, rfl, rfl, rfl⟩

/-- `update` never writes `orbit_speed`. -/
theorem CelestialBody.update_orbit_speed (b : CelestialBody)
    (pp : Option (ℝ × ℝ)) : (b.update pp).orbit_speed = b.orbit_speed := by
  cases pp with
  | none => rfl
  | some q => cases q with
    | mk px py => rfl

theorem staticEq_refl (b : CelestialBody) : staticEq b b :=
  ⟨rfl, rfl, rfl, rfl, rfl, rfl, rfl⟩

theorem staticEq_trans {a b c : CelestialBody} (h1 : staticEq a b)
    (h2 : staticEq b c) : staticEq a c :=
  ⟨h1.1.trans h2.1, h1.2.1.trans h2.2.1, h1.2.2.1.trans h2.2.2.1,
   h1.2.2.2.1.trans h2.2.2.2.1, h1.2.2.2.2.1.trans h2.2.2.2.2.1,
   h1.2.2.2.2.2.1.trans h2.2.2.2.2.2.1, h1.2.2.2.2.2.2.trans h2.2.2.2.2.2.2⟩

/-- The loop body never writes the static fields. -/
theorem SolarSystem.stepBodyAt_staticEq (tf : ℝ) (l : List CelestialBody)
    (b : CelestialBody) : staticEq (SolarSystem.stepBodyAt tf l b) b := by
  unfold SolarSystem.stepBodyAt
  refine staticEq_trans (CelestialBody.update_staticEq _ _) ?_
  by_cases h : b.parent.isSome = true
  · rw [if_pos h]
    exact ⟨rfl, rfl, rfl, rfl, rfl, rfl, rfl⟩
  · rw [if_neg h]
    exact staticEq_refl b

/-- For a parented body the loop sets `orbit_speed = base · tf`. -/
theorem SolarSystem.stepBodyAt_orbit_speed (tf : ℝ) (l : List CelestialBody)
    (b : CelestialBody) (h : b.parent.isSome = true) :
    (SolarSystem.stepBodyAt tf l b).orbit_speed = b.base_orbit_speed * tf := by
  unfold SolarSystem.stepBodyAt
  rw [if_pos h, CelestialBody.update_orbit_speed]

/-- For a parentless body the loop is just `body.update()` with no
parent position. -/
theorem SolarSystem.stepBodyAt_root (tf : ℝ) (l : List CelestialBody)
    (b : CelestialBody) (h : b.parent = none) :
    SolarSystem.stepBodyAt tf l b = b.update none := by
  unfold SolarSystem.stepBodyAt
  rw [if_neg (by rw [h]; simp)]
  dsimp only
  rw [h]
  rfl

theorem SolarSystem.sysStep_get_ne (tf : ℝ) (l : List CelestialBody)
    (i j : ℕ) (hij : i ≠ j) :
    (SolarSystem.sysStep tf l i).get? j = l.get? j := by
  unfold SolarSystem.sysStep
  cases h : l.get? i
  · rfl
  · exact List.get?_set_ne _ _ hij

theorem SolarSystem.sysStep_get_eq (tf : ℝ) (l : List CelestialBody)
    (i : ℕ) (b : CelestialBody) (hb : l.get? i = some b) :
    (SolarSystem.sysStep tf l i).get? i =
      some (SolarSystem.stepBodyAt tf l b) := by
  rcases List.get?_eq_some.mp hb with ⟨hlt, -⟩
  unfold SolarSystem.sysStep
  rw [hb]
  exact List.get?_set_eq_of_lt _ hlt

/-- What the update loop does to the body at index `i` over any
duplicate-free list of loop indices: static fields survive, untouched
indices are literally unchanged, a parentless body keeps its position
and orbit speed, and a parented, visited body gets
`orbit_speed = base · tf`. -/
theorem SolarSystem.foldl_sysStep_get (tf : ℝ) :
    ∀ is : List ℕ, is.Nodup →
      ∀ (l : List CelestialBody) (i : ℕ) (b0 : CelestialBody),
        l.get? i = some b0 →
        ∃ b, (is.foldl (SolarSystem.sysStep tf) l).get? i = some b ∧
          staticEq b b0 ∧
          (i ∉ is → b = b0) ∧
          (b0.parent = none → b.x = b0.x ∧ b.y = b0.y ∧
            b.orbit_speed = b0.orbit_speed) ∧
          (i ∈ is → b0.parent.isSome = true →
            b.orbit_speed = b0.base_orbit_speed * tf) := by
  intro is
  induction is with
  | nil =>
      intro _ l i b0 hb
      exact ⟨b0, hb, staticEq_refl b0, fun _ => rfl,
        fun _ => ⟨rfl, rfl, rfl⟩, fun h => absurd h (List.not_mem_nil i)⟩
  | cons k ks ih =>
      intro hnd l i b0 hb
      obtain ⟨hk, hnd'⟩ := List.nodup_cons.mp hnd
      rw [List.foldl_cons]
      by_cases hki : k = i
      · subst hki
        have hstep := SolarSystem.sysStep_get_eq tf l k b0 hb
        obtain ⟨b, hgb, hstat, hnotin, -, -⟩ :=
          ih hnd' (SolarSystem.sysStep tf l k) k _ hstep
        have hb_eq : b = SolarSystem.stepBodyAt tf l b0 := hnotin hk
        refine ⟨b, hgb,
          staticEq_trans hstat (SolarSystem.stepBodyAt_staticEq tf l b0),
          ?_, ?_, ?_⟩
        · intro hni
          exact absurd (List.mem_cons_self k ks) hni
        · intro hpn
          rw [hb_eq, SolarSystem.stepBodyAt_root tf l b0 hpn,
            CelestialBody.update_none]
          exact ⟨rfl, rfl, rfl⟩
        · intro _ hps
          rw [hb_eq]
          exact SolarSystem.stepBodyAt_orbit_speed tf l b0 hps
      · have hkeep : (SolarSystem.sysStep tf l k).get? i = some b0 := by
          rw [SolarSystem.sysStep_get_ne tf l k i hki]
          exact hb
        obtain ⟨b, hgb, hstat, hnotin, hroot, hspeed⟩ :=
          ih hnd' (SolarSystem.sysStep tf l k) i b0 hkeep
        refine ⟨b, hgb, hstat, ?_, hroot, ?_⟩
        · intro hni
          exact hnotin (fun hm => hni (List.mem_cons_of_mem k hm))
        · intro hin hps
          rcases List.mem_cons.mp hin with h1 | h2
          · exact absurd h1.symm hki
          · exact hspeed h2 hps

theorem simEq_refl (b : CelestialBody) : simEq b b :=
  ⟨rfl, rfl, rfl, rfl, rfl, rfl, rfl, fun _ => rfl⟩

/-- `resolvePos` only reads the eccentricity, semi-major axis and
`one_minus_e2` of its body. -/
theorem CelestialBody.resolvePos_congr (b b' : CelestialBody) (M px py : ℝ)
    (h1 : b.eccentricity = b'.eccentricity)
    (h2 : b.semi_major_axis = b'.semi_major_axis)
    (h3 : b.one_minus_e2 = b'.one_minus_e2) :
    b.resolvePos M px py = b'.resolvePos M px py := by
  unfold CelestialBody.resolvePos
  rw [h1, h2, h3]

/-- With `time_factor = 0`, one iteration of the update loop on a state
entry-wise `simEq` to a steady original keeps it entry-wise `simEq`. -/
theorem SolarSystem.sysStep_simInv (s : SolarSystem) (hst : s.steady)
    (cur : List CelestialBody) (hinv : SimInv s.bodies cur) (k : ℕ) :
    SimInv s.bodies (SolarSystem.sysStep 0 cur k) := by
  intro j
  by_cases hkj : k = j
  · subst hkj
    constructor
    · intro b0 horig
      obtain ⟨b, hcur, hsim⟩ := (hinv k).1 b0 horig
      rw [SolarSystem.sysStep_get_eq 0 cur k b hcur]
      refine ⟨SolarSystem.stepBodyAt 0 cur b, rfl, ?_⟩
      obtain ⟨hang, hrootspeed, hcons⟩ := hst k b0 horig
      rcases hp : b0.parent with _ | pj
      · -- parentless: only the angle is recomputed, and it is unchanged
        have hbp : b.parent = none := by rw [hsim.2.2.2.1, hp]
        rw [SolarSystem.stepBodyAt_root 0 cur b hbp,
          CelestialBody.update_none]
        have hsp : b.orbit_speed = 0 := by
          rw [hsim.2.2.2.2.2.2.2 hp]
          exact hrootspeed hp
        have hangle : fmod (b.angle + b.orbit_speed) (2 * Real.pi) = b0.angle := by
          rw [hsp, add_zero, hsim.1]
          exact fmod_eq_self b0.angle (2 * Real.pi) (by positivity) hang.1 hang.2
        exact ⟨hangle, hsim.2.1, hsim.2.2.1, hsim.2.2.2.1, hsim.2.2.2.2.1,
          hsim.2.2.2.2.2.1, hsim.2.2.2.2.2.2.1,
          fun _ => hsim.2.2.2.2.2.2.2 hp⟩
      · -- parented: the position is re-resolved and lands where it was
        have hbp : b.parent = some pj := by rw [hsim.2.2.2.1, hp]
        have hbs : b.parent.isSome = true := by rw [hbp]; rfl
        obtain ⟨p0, hp0, hposeq⟩ := hcons pj hp
        obtain ⟨p, hpcur, hpsim⟩ := (hinv pj).1 p0 hp0
        have hpp : (cur.get? pj).map (fun q => (q.x, q.y)) = some (p0.x, p0.y) := by
          rw [hpcur]
          simp [hpsim.2.1, hpsim.2.2.1]
        have hstep : SolarSystem.stepBodyAt 0 cur b =
            ({ b with orbit_speed := b.base_orbit_speed * 0 } :
              CelestialBody).update (some (p0.x, p0.y)) := by
          unfold SolarSystem.stepBodyAt
          dsimp only
          rw [if_pos hbs]
          dsimp only
          rw [hbp, Option.some_bind, hpp]
        rw [hstep, CelestialBody.update_some]
        have hA1 : fmod (b.angle + b.base_orbit_speed * 0) (2 * Real.pi)
            = b0.angle := by
          rw [mul_zero, add_zero, hsim.1]
          exact fmod_eq_self b0.angle (2 * Real.pi) (by positivity) hang.1 hang.2
        have hres : ({ b with orbit_speed := b.base_orbit_speed * 0 } :
            CelestialBody).resolvePos b0.angle p0.x p0.y = (b0.x, b0.y) := by
          show b.resolvePos b0.angle p0.x p0.y = (b0.x, b0.y)
          rw [CelestialBody.resolvePos_congr b b0 _ _ _ hsim.2.2.2.2.2.1
            hsim.2.2.2.2.1 hsim.2.2.2.2.2.2.1]
          exact hposeq.symm
        refine ⟨?_, ?_, ?_, ?_, ?_, ?_, ?_, ?_⟩
        · show fmod (b.angle + b.base_orbit_speed * 0) (2 * Real.pi) = b0.angle
          exact hA1
        · show (({ b with orbit_speed := b.base_orbit_speed * 0 } :
              CelestialBody).resolvePos
              (fmod (b.angle + b.base_orbit_speed * 0) (2 * Real.pi))
              p0.x p0.y).1 = b0.x
          rw [hA1, hres]
        · show (({ b with orbit_speed := b.base_orbit_speed * 0 } :
              CelestialBody).resolvePos
              (fmod (b.angle + b.base_orbit_speed * 0) (2 * Real.pi))
              p0.x p0.y).2 = b0.y
          rw [hA1, hres]
        · exact hsim.2.2.2.1
        · exact hsim.2.2.2.2.1
        · exact hsim.2.2.2.2.2.1
        · exact hsim.2.2.2.2.2.2.1
        · intro hnone
          rw [hp] at hnone
          exact Option.noConfusion hnone
    · intro horig
      have hcur := (hinv k).2 horig
      unfold SolarSystem.sysStep
      rw [hcur]
      exact hcur
  · constructor
    · intro b0 horig
      rw [SolarSystem.sysStep_get_ne 0 cur k j hkj]
      exact (hinv j).1 b0 horig
    · intro horig
      rw [SolarSystem.sysStep_get_ne 0 cur k j hkj]
      exact (hinv j).2 horig

/-- With `time_factor = 0` the whole update loop keeps a steady state
entry-wise `simEq` to itself. -/
theorem SolarSystem.foldl_sysStep_simInv (s : SolarSystem) (hst : s.steady) :
    ∀ is : List ℕ, ∀ cur, SimInv s.bodies cur →
      SimInv s.bodies (is.foldl (SolarSystem.sysStep 0) cur) := by
  intro is
  induction is with
  | nil =>
      intro cur h
      exact h
  | cons k ks ih =>
      intro cur h
      rw [List.foldl_cons]
      exact ih _ (SolarSystem.sysStep_simInv s hst cur h k)

/-- With a present parent and a valid cache, `update_orbit_surface`
returns the body untouched. -/
theorem CelestialBody.update_orbit_surface_of_valid (b : CelestialBody)
    (zoom view_x view_y : ℝ) (w h : ℕ) (px py : ℝ)
    (hpar : b.parent ≠ none)
    (hv : b.cacheValid zoom view_x view_y w h) :
    b.update_orbit_surface zoom view_x view_y w h px py = b := by
  unfold CelestialBody.update_orbit_surface
  rw [if_neg hpar, if_pos hv]

/-- With a present parent and an invalid cache, `update_orbit_surface`
stores the new camera key, builds a surface, a rect and the sample
points, and leaves the parent alone. -/
theorem CelestialBody.update_orbit_surface_of_invalid (b : CelestialBody)
    (zoom view_x view_y : ℝ) (w h : ℕ) (px py : ℝ)
    (hpar : b.parent ≠ none)
    (hv : ¬ b.cacheValid zoom view_x view_y w h) :
    (b.update_orbit_surface zoom view_x view_y w h px py).last_zoom = zoom ∧
    (b.update_orbit_surface zoom view_x view_y w h px py).last_width = w ∧
    (b.update_orbit_surface zoom view_x view_y w h px py).last_height = h ∧
    (b.update_orbit_surface zoom view_x view_y w h px py).last_view_x = view_x ∧
    (b.update_orbit_surface zoom view_x view_y w h px py).last_view_y = view_y ∧
    (b.update_orbit_surface zoom view_x view_y w h px py).orbit_surface.isSome
      = true ∧
    (b.update_orbit_surface zoom view_x view_y w h px py).orbit_rect.isSome
      = true ∧
    (b.update_orbit_surface zoom view_x view_y w h px py).parent = b.parent := by
  unfold CelestialBody.update_orbit_surface
  rw [if_neg hpar, if_neg hv]
  exact ⟨rfl, rfl, rfl, rfl, rfl, rfl, rfl, rfl⟩

/-! # The claims -/

/-- After an update step with a present parent, the distance to the
parent position read is between periapsis and apoapsis.  (Shared by
claim C1 and the claim C7 counterexample.) -/
theorem CelestialBody.update_dist_bounds (b : CelestialBody) (px py : ℝ)
    (ha : 0 < b.semi_major_axis) (he0 : 0 ≤ b.eccentricity)
    (he1 : b.eccentricity < 1)
    (home : b.one_minus_e2 = 1 - b.eccentricity * b.eccentricity) :
    b.semi_major_axis * (1 - b.eccentricity) ≤
      Real.sqrt (((b.update (some (px, py))).x - px) ^ 2 +
        ((b.update (some (px, py))).y - py) ^ 2) ∧
    Real.sqrt (((b.update (some (px, py))).x - px) ^ 2 +
        ((b.update (some (px, py))).y - py) ^ 2) ≤
      b.semi_major_axis * (1 + b.eccentricity) := by
  set M := fmod (b.angle + b.orbit_speed) (2 * Real.pi) with hM
  have hx : (b.update (some (px, py))).x = (b.resolvePos M px py).1 := by
    rw [CelestialBody.update_some]
  have hy : (b.update (some (px, py))).y = (b.resolvePos M px py).2 := by
    rw [CelestialBody.update_some]
  have hbounds := CelestialBody.orbitRadius_le b.semi_major_axis b.eccentricity
    (CelestialBody.trueAnomaly b.eccentricity (CelestialBody.keplerE M b.eccentricity))
    ha he0 he1
  have hpos := CelestialBody.orbitRadius_pos b.semi_major_axis b.eccentricity
    (CelestialBody.trueAnomaly b.eccentricity (CelestialBody.keplerE M b.eccentricity))
    ha he0 he1
  rw [← home] at hbounds hpos
  have hdist := CelestialBody.resolvePos_dist b M px py hpos.le
  rw [hx, hy, hdist]
  exact hbounds

/-- Claim C1: for every non-root body with `a > 0` and `0 ≤ e < 1` (and
the constructor invariant `one_minus_e2 = 1 - e·e`), after any call to
`CelestialBody.update` the distance from the body's position to the
parent position it read satisfies `a(1-e) ≤ r ≤ a(1+e)` — for every mean
anomaly and every orbit speed, hence for every tick and `time_factor`. -/
theorem claim1_radius_bounds (b : CelestialBody) (px py : ℝ)
    (ha : 0 < b.semi_major_axis) (he0 : 0 ≤ b.eccentricity)
    (he1 : b.eccentricity < 1)
    (home : b.one_minus_e2 = 1 - b.eccentricity * b.eccentricity) :
    b.semi_major_axis * (1 - b.eccentricity) ≤
      Real.sqrt (((b.update (some (px, py))).x - px) ^ 2 +
        ((b.update (some (px, py))).y - py) ^ 2) ∧
    Real.sqrt (((b.update (some (px, py))).x - px) ^ 2 +
        ((b.update (some (px, py))).y - py) ^ 2) ≤
      b.semi_major_axis * (1 + b.eccentricity) :=
  CelestialBody.update_dist_bounds b px py ha he0 he1 home

/-- Witness for C1 at a concrete circular orbit (`a = 100`, `e = 0`). -/
theorem claim1_radius_bounds_witness :
    sampleOrbiter.semi_major_axis * (1 - sampleOrbiter.eccentricity) ≤
      Real.sqrt (((sampleOrbiter.update (some (0, 0))).x - 0) ^ 2 +
        ((sampleOrbiter.update (some (0, 0))).y - 0) ^ 2) ∧
    Real.sqrt (((sampleOrbiter.update (some (0, 0))).x - 0) ^ 2 +
        ((sampleOrbiter.update (some (0, 0))).y - 0) ^ 2) ≤
      sampleOrbiter.semi_major_axis * (1 + sampleOrbiter.eccentricity) :=
  claim1_radius_bounds sampleOrbiter 0 0
    (by norm_num [sampleOrbiter, SolarSystem.mkPlanet])
    (by norm_num [sampleOrbiter, SolarSystem.mkPlanet])
    (by norm_num [sampleOrbiter, SolarSystem.mkPlanet])
    (by norm_num [sampleOrbiter, SolarSystem.mkPlanet])

/-- Claim C4: `add_moon` under a non-root parent (in this program the
root star is the unique body named `"Sun"`) clamps a nominal semi-major
axis below `2 × parent.radius` up to exactly `2 × parent.radius`, and
leaves a nominal value `≥ 2 × parent.radius` unchanged. -/
theorem claim4_moon_min_orbit (parentIdx : ℕ) (parent : CelestialBody)
    (a radius speed ecc : ℝ) (name : String) (mass angle : ℝ)
    (hname : parent.name ≠ "Sun") :
    (a < 2 * parent.radius →
      (SolarSystem.mkMoon parentIdx parent a radius speed ecc name mass
        angle).semi_major_axis = 2 * parent.radius) ∧
    (2 * parent.radius ≤ a →
      (SolarSystem.mkMoon parentIdx parent a radius speed ecc name mass
        angle).semi_major_axis = a) := by
  unfold SolarSystem.mkMoon
  simp only [if_pos hname]
  constructor
  · intro h
    rw [max_eq_right (by linarith)]
    ring
  · intro h
    rw [max_eq_left (by linarith)]

/-- Witness for C4: a nominal axis 5 under a radius-10 planet becomes 20;
a nominal axis 30 is kept. -/
theorem claim4_moon_min_orbit_witness :
    (SolarSystem.mkMoon 1 sampleParent 5 1 0.1 0 "Moon" 0 0).semi_major_axis
        = 2 * sampleParent.radius ∧
    (SolarSystem.mkMoon 1 sampleParent 30 1 0.1 0 "Moon" 0 0).semi_major_axis
        = 30 :=
  ⟨(claim4_moon_min_orbit 1 sampleParent 5 1 0.1 0 "Moon" 0 0
      (by simp [sampleParent, SolarSystem.mkPlanet])).1
      (by norm_num [sampleParent, SolarSystem.mkPlanet]),
   (claim4_moon_min_orbit 1 sampleParent 30 1 0.1 0 "Moon" 0 0
      (by simp [sampleParent, SolarSystem.mkPlanet])).2
      (by norm_num [sampleParent, SolarSystem.mkPlanet])⟩

/-- Claim C6: the Kepler solve is `E = M` followed by exactly 5
fixed-point passes `E ← M + e·sin E` (no convergence check), and it is
deterministic: equal inputs give equal outputs. -/
theorem claim6_kepler_five_iterations (M e : ℝ) :
    CelestialBody.keplerE M e = (fun E => M + e * Real.sin E)^[5] M ∧
    (∀ M2 e2 : ℝ, M = M2 → e = e2 →
      CelestialBody.keplerE M e = CelestialBody.keplerE M2 e2) := by
  constructor
  · simp [CelestialBody.keplerE, CelestialBody.keplerIter,
      Function.iterate_succ_apply']
  · intro M2 e2 h1 h2
    rw [h1, h2]

/-- Witness for C6 at `(M, e) = (1, 1/2)`. -/
theorem claim6_kepler_five_iterations_witness :
    CelestialBody.keplerE 1 (1/2) = (fun E => 1 + (1/2) * Real.sin E)^[5] 1 ∧
    CelestialBody.keplerE 1 (1/2) = CelestialBody.keplerE 1 (1/2) :=
  ⟨(claim6_kepler_five_iterations 1 (1/2)).1,
   (claim6_kepler_five_iterations 1 (1/2)).2 1 (1/2) rfl rfl⟩

/-- Claim C8: the camera transform is the affine map
`((x − view_x)·zoom + ⌊w/2⌋, (y − view_y)·zoom + ⌊h/2⌋)` (the code
halves the integer viewport dimensions with `//`), and composing it with
the drag-panning inverse (screen offset divided by zoom) returns the
original world point exactly, for every zoom in `[0.05, 5]` and every
pan. -/
theorem claim8_camera_roundtrip (zoom view_x view_y : ℝ) (w h : ℕ)
    (p : ℝ × ℝ) (hz1 : 0.05 ≤ zoom) (hz2 : zoom ≤ 5) :
    worldToScreen zoom view_x view_y w h p =
      ((p.1 - view_x) * zoom + (w / 2 : ℕ),
       (p.2 - view_y) * zoom + (h / 2 : ℕ)) ∧
    screenToWorld zoom view_x view_y w h
      (worldToScreen zoom view_x view_y w h p) = p := by
  refine ⟨rfl, ?_⟩
  have hz : zoom ≠ 0 := by
    intro h0
    rw [h0] at hz1
    norm_num at hz1
  unfold screenToWorld worldToScreen
  have h1 : ∀ u c : ℝ, (u * zoom + c - c) / zoom + 0 = u := by
    intro u c
    field_simp
  have hx : ((p.1 - view_x) * zoom + (w / 2 : ℕ) - (w / 2 : ℕ)) / zoom + view_x = p.1 := by
    field_simp
  have hy : ((p.2 - view_y) * zoom + (h / 2 : ℕ) - (h / 2 : ℕ)) / zoom + view_y = p.2 := by
    field_simp
  exact Prod.ext hx hy

/-- Witness for C8 at `zoom = 1`, viewport `1200 × 800`, pan `(3, 4)`,
point `(5, 6)`. -/
theorem claim8_camera_roundtrip_witness :
    screenToWorld 1 3 4 1200 800 (worldToScreen 1 3 4 1200 800 (5, 6)) = (5, 6) :=
  (claim8_camera_roundtrip 1 3 4 1200 800 (5, 6) (by norm_num) (by norm_num)).2

/-- Claim C9: star at the origin, one circular planet `a = 100, e = 0`;
when the update step sees mean anomaly exactly `π`, it computes true
anomaly `π`, radius `100`, and resolves the position to
`(star.x − 100, star.y)`. -/
theorem claim9_end_to_end_half_period :
    CelestialBody.keplerE Real.pi 0 = Real.pi ∧
    CelestialBody.trueAnomaly 0 Real.pi = Real.pi ∧
    CelestialBody.orbitRadius c9Planet.semi_major_axis c9Planet.one_minus_e2
      c9Planet.eccentricity Real.pi = 100 ∧
    (c9Planet.update (some (c9Star.x, c9Star.y))).x = c9Star.x - 100 ∧
    (c9Planet.update (some (c9Star.x, c9Star.y))).y = c9Star.y := by
  have hE : CelestialBody.keplerE Real.pi 0 = Real.pi := by
    simp [CelestialBody.keplerE, CelestialBody.keplerIter]
  have hnu : CelestialBody.trueAnomaly 0 Real.pi = Real.pi := by
    unfold CelestialBody.trueAnomaly
    rw [show (1:ℝ) + 0 = 1 by norm_num, show (1:ℝ) - 0 = 1 by norm_num,
      Real.sqrt_one, Real.sin_pi_div_two, Real.cos_pi_div_two]
    unfold atan2
    norm_num
    have h : (⟨0, 1⟩ : ℂ) = Complex.I := rfl
    rw [h, Complex.arg_I]
    ring
  have hfields : c9Planet.semi_major_axis = 100 ∧ c9Planet.eccentricity = 0 ∧
      c9Planet.one_minus_e2 = 1 ∧ c9Planet.angle = Real.pi ∧
      c9Planet.orbit_speed = 0 := by
    refine ⟨rfl, rfl, ?_, rfl, rfl⟩
    show (1 : ℝ) - 0 * 0 = 1
    norm_num
  have hr : CelestialBody.orbitRadius c9Planet.semi_major_axis
      c9Planet.one_minus_e2 c9Planet.eccentricity Real.pi = 100 := by
    rw [hfields.1, hfields.2.1, hfields.2.2.1]
    unfold CelestialBody.orbitRadius
    norm_num
  have hM : fmod (c9Planet.angle + c9Planet.orbit_speed) (2 * Real.pi) = Real.pi := by
    rw [hfields.2.2.2.1, hfields.2.2.2.2, add_zero]
    unfold fmod
    have h : Real.pi / (2 * Real.pi) = 1 / 2 := by
      rw [div_eq_iff (by positivity : (2 : ℝ) * Real.pi ≠ 0)]
      ring
    rw [h]
    norm_num
  have hres : c9Planet.resolvePos Real.pi c9Star.x c9Star.y =
      (c9Star.x - 100, c9Star.y) := by
    unfold CelestialBody.resolvePos
    dsimp only
    have hr' := hr
    rw [hfields.2.1] at hr'
    rw [hfields.2.1, hE, hnu, hr', Real.cos_pi, Real.sin_pi]
    refine Prod.ext ?_ ?_ <;> dsimp only <;> ring
  refine ⟨hE, hnu, hr, ?_, ?_⟩
  · rw [CelestialBody.update_some, hM]
    show (c9Planet.resolvePos Real.pi c9Star.x c9Star.y).1 = c9Star.x - 100
    rw [hres]
  · rw [CelestialBody.update_some, hM]
    show (c9Planet.resolvePos Real.pi c9Star.x c9Star.y).2 = c9Star.y
    rw [hres]

/-- Claim C3: scene construction never divides by zero and treats a zero
or near-zero orbital period as non-orbiting.  Concretely: the planet path
special-cases every period `≤ 0` to angular speed `0` (so its division
`earth_period / period` only runs on a positive period); the catalog's
zero-period entry — the Sun — is built by `add_star` with `orbit_speed
= 0`; and every entry the orbiting paths process has `|period| > 1/10`
(all planets strictly positive, all moons nonzero), so the moon divisor
`abs(period)` is never zero and no processed entry is zero or near-zero. -/
theorem claim3_zero_period_safe :
    (∀ q : ℚ, q ≤ 0 → planetOrbitSpeed q = 0) ∧
    (∀ x y r mass, (SolarSystem.mkStar x y r "Sun" mass).orbit_speed = 0) ∧
    (∀ e ∈ realCatalog.tail, 0 < e.orbital_period ∧ (1:ℚ)/10 < |e.orbital_period|) ∧
    (∀ e ∈ realCatalog.tail, ∀ m ∈ e.moons,
      m.orbital_period ≠ 0 ∧ (1:ℚ)/10 < |m.orbital_period|) := by
  refine ⟨?_, ?_, ?_, ?_⟩
  · intro q hq
    unfold planetOrbitSpeed
    rw [if_neg (not_lt.mpr hq)]
  · intro x y r mass
    rfl
  · intro e he
    fin_cases he <;> constructor <;> norm_num [lt_abs]
  · intro e he
    fin_cases he <;> intro m hm <;> fin_cases hm <;> constructor <;>
      norm_num [lt_abs]

/-- Witness for C3: the planet guard at period `0`, the Sun star, and the
first processed planet (Mercury) and moon (Phobos). -/
theorem claim3_zero_period_safe_witness :
    planetOrbitSpeed 0 = 0 ∧
    (SolarSystem.mkStar 600 400 5 "Sun" 1.989e30).orbit_speed = 0 ∧
    (0 < (87.97 : ℚ) ∧ (1:ℚ)/10 < |(87.97 : ℚ)|) ∧
    ((0.319 : ℚ) ≠ 0 ∧ (1:ℚ)/10 < |(0.319 : ℚ)|) :=
  ⟨claim3_zero_period_safe.1 0 le_rfl,
   claim3_zero_period_safe.2.1 600 400 5 1.989e30,
   claim3_zero_period_safe.2.2.1 ⟨"Mercury", 87.97, []⟩ (by simp [realCatalog]),
   claim3_zero_period_safe.2.2.2
     ⟨"Mars", 686.98, [⟨"Phobos", 0.319⟩, ⟨"Deimos", 1.263⟩]⟩
     (by simp [realCatalog])
     ⟨"Phobos", 0.319⟩ (by simp)⟩

/-- Claim C2: a parentless (root) body's position is never changed by
the engine — after any number of `SolarSystem.update` calls, under any
`time_factor`, its `x` and `y` (and its rootness) are unchanged. -/
theorem claim2_root_position_fixed (s : SolarSystem) (i : ℕ)
    (b0 : CelestialBody) (hb : s.bodies.get? i = some b0)
    (hroot : b0.parent = none) :
    ∀ n : ℕ, ∃ b, ((SolarSystem.update)^[n] s).bodies.get? i = some b ∧
      b.x = b0.x ∧ b.y = b0.y ∧ b.parent = none := by
  intro n
  induction n generalizing s b0 with
  | zero => exact ⟨b0, hb, rfl, rfl, hroot⟩
  | succ n ihn =>
      rw [Function.iterate_succ_apply]
      obtain ⟨b1, hg1, hstat, -, hroot1, -⟩ :=
        SolarSystem.foldl_sysStep_get s.time_factor
          (List.range s.bodies.length) (List.nodup_range _) s.bodies i b0 hb
      have hparent1 : b1.parent = none := by
        rw [hstat.2.2.2.2.1, hroot]
      obtain ⟨hx1, hy1, -⟩ := hroot1 hroot
      obtain ⟨b, hg, hx, hy, hp⟩ := ihn s.update b1 hg1 hparent1
      exact ⟨b, hg, by rw [hx, hx1], by rw [hy, hy1], hp⟩

/-- Witness for C2: three updates of the two-body scene leave the star
at the origin. -/
theorem claim2_root_position_fixed_witness :
    ∃ b, ((SolarSystem.update)^[3] freshSystem).bodies.get? 0 = some b ∧
      b.x = c9Star.x ∧ b.y = c9Star.y ∧ b.parent = none :=
  claim2_root_position_fixed freshSystem 0 c9Star rfl rfl 3

/-- Claim C10: after a `SolarSystem.update`, every parented body's
`orbit_speed` is exactly `base_orbit_speed * time_factor`, and the update
modifies no body's `base_orbit_speed`, `semi_major_axis`,
`eccentricity`, `radius` or `parent` — so time-factor changes rescale
from the base speed each tick and never compound. -/
theorem claim10_orbit_speed_from_base (s : SolarSystem) (i : ℕ)
    (b0 : CelestialBody) (hb : s.bodies.get? i = some b0) :
    ∃ b, s.update.bodies.get? i = some b ∧
      b.base_orbit_speed = b0.base_orbit_speed ∧
      b.semi_major_axis = b0.semi_major_axis ∧
      b.eccentricity = b0.eccentricity ∧
      b.radius = b0.radius ∧
      b.parent = b0.parent ∧
      (b0.parent.isSome = true →
        b.orbit_speed = b0.base_orbit_speed * s.time_factor) := by
  rcases List.get?_eq_some.mp hb with ⟨hlt, -⟩
  obtain ⟨b, hg, hstat, -, -, hspeed⟩ :=
    SolarSystem.foldl_sysStep_get s.time_factor
      (List.range s.bodies.length) (List.nodup_range _) s.bodies i b0 hb
  exact ⟨b, hg, hstat.2.2.2.1, hstat.2.1, hstat.2.2.1, hstat.1,
    hstat.2.2.2.2.1, fun hp => hspeed (List.mem_range.mpr hlt) hp⟩

/-- Witness for C10 at the planet of the two-body scene. -/
theorem claim10_orbit_speed_from_base_witness :
    ∃ b, freshSystem.update.bodies.get? 1 = some b ∧
      b.base_orbit_speed =
        (SolarSystem.mkPlanet 0 c9Star 100 3 0 0 "Planet" 0 0).base_orbit_speed ∧
      b.semi_major_axis =
        (SolarSystem.mkPlanet 0 c9Star 100 3 0 0 "Planet" 0 0).semi_major_axis ∧
      b.eccentricity =
        (SolarSystem.mkPlanet 0 c9Star 100 3 0 0 "Planet" 0 0).eccentricity ∧
      b.radius = (SolarSystem.mkPlanet 0 c9Star 100 3 0 0 "Planet" 0 0).radius ∧
      b.parent = (SolarSystem.mkPlanet 0 c9Star 100 3 0 0 "Planet" 0 0).parent ∧
      ((SolarSystem.mkPlanet 0 c9Star 100 3 0 0 "Planet" 0 0).parent.isSome = true →
        b.orbit_speed =
          (SolarSystem.mkPlanet 0 c9Star 100 3 0 0 "Planet" 0 0).base_orbit_speed *
            freshSystem.time_factor) :=
  claim10_orbit_speed_from_base freshSystem 1
    (SolarSystem.mkPlanet 0 c9Star 100 3 0 0 "Planet" 0 0) rfl

/-- Claim C7 as stated is false on the code: in the freshly constructed
two-body scene with `time_factor = 0` (star at the origin; planet
`a = 100, e = 0` constructed at its parent's position, as `add_planet`
does), the first `SolarSystem.update` moves the planet onto its orbit —
at least `a(1−e) = 100` away from the star — even though the orbit-speed
contribution is zero. -/
theorem claim7_tf_zero_counterexample :
    freshSystem.time_factor = 0 ∧
    ¬ ((freshSystem.update.bodies.get? 1).map (fun b => (b.x, b.y)) =
      (freshSystem.bodies.get? 1).map (fun b => (b.x, b.y))) := by
  refine ⟨rfl, ?_⟩
  intro heq
  have hplanet : freshSystem.update.bodies.get? 1 =
      some (({ SolarSystem.mkPlanet 0 c9Star 100 3 0 0 "Planet" 0 0 with
        orbit_speed :=
          (SolarSystem.mkPlanet 0 c9Star 100 3 0 0 "Planet" 0 0).base_orbit_speed
            * 0 } : CelestialBody).update (some (0, 0))) := rfl
  have hfresh : (freshSystem.bodies.get? 1).map (fun b => (b.x, b.y)) =
      some ((0 : ℝ), (0 : ℝ)) := rfl
  rw [hplanet, hfresh, Option.map_some'] at heq
  have hpair := Option.some.inj heq
  have hx := congrArg Prod.fst hpair
  have hy := congrArg Prod.snd hpair
  dsimp only at hx hy
  have hlow := (CelestialBody.update_dist_bounds
    ({ SolarSystem.mkPlanet 0 c9Star 100 3 0 0 "Planet" 0 0 with
        orbit_speed :=
          (SolarSystem.mkPlanet 0 c9Star 100 3 0 0 "Planet" 0 0).base_orbit_speed
            * 0 } : CelestialBody) 0 0
    (by show (0:ℝ) < 100; norm_num)
    (by show (0:ℝ) ≤ 0; norm_num)
    (by show (0:ℝ) < 1; norm_num)
    (by show (1:ℝ) - 0 * 0 = 1 - 0 * 0; rfl)).1
  rw [hx, hy] at hlow
  have h100 : ((100 : ℝ) * (1 - 0) : ℝ) ≤ Real.sqrt (((0:ℝ) - 0) ^ 2 + ((0:ℝ) - 0) ^ 2) := hlow
  rw [show (((0:ℝ) - 0) ^ 2 + ((0:ℝ) - 0) ^ 2) = 0 by norm_num, Real.sqrt_zero] at h100
  norm_num at h100

/-- Claim C7 (amended): a pause skips the update entirely, freezing every
body; and with `time_factor = 0`, from any steady state (angles in
`[0, 2π)`, parentless bodies at speed 0, positions already consistent
with the current angles and parent positions — e.g. any state the engine
has stepped at least once; `claim7_tf_zero_counterexample` shows
freshly constructed scenes are excluded for a reason), no body's mean
anomaly or position changes across a frame step. -/
theorem claim7_pause_or_zero_tf_freezes (s : SolarSystem) :
    (frameStep true s = s) ∧
    (s.time_factor = 0 → s.steady →
      ∀ i b0, s.bodies.get? i = some b0 →
        ∃ b, s.update.bodies.get? i = some b ∧
          b.angle = b0.angle ∧ b.x = b0.x ∧ b.y = b0.y) := by
  constructor
  · rfl
  · intro htf hst i b0 hb
    have hinv0 : SimInv s.bodies s.bodies :=
      fun j => ⟨fun b0' h => ⟨b0', h, simEq_refl b0'⟩, fun h => h⟩
    have hinv := SolarSystem.foldl_sysStep_simInv s hst
      (List.range s.bodies.length) s.bodies hinv0
    have hbody : s.update.bodies =
        (List.range s.bodies.length).foldl (SolarSystem.sysStep 0) s.bodies := by
      show (List.range s.bodies.length).foldl
        (SolarSystem.sysStep s.time_factor) s.bodies = _
      rw [htf]
    obtain ⟨b, hg, hsim⟩ := (hinv i).1 b0 hb
    refine ⟨b, ?_, hsim.1, hsim.2.1, hsim.2.2.1⟩
    rw [hbody]
    exact hg

/-- Claim C5: for a parented body, `update_orbit_surface` rebuilds the
cached orbit surface iff the cache is invalid — valid meaning a surface
is built, `|zoom − cached.zoom| < 0.01`, the viewport dimensions are
unchanged and `|pan − cached.pan| < 1` on both axes.  A call under a
valid cache returns the body (surface, rect and key included)
untouched; a call under an invalid cache builds a surface and stores the
new `(zoom, viewport, pan)` key; and an immediate second call with the
same camera is the identity, so a camera change causes exactly one
rebuild. -/
theorem claim5_orbit_cache_protocol (b : CelestialBody)
    (zoom view_x view_y : ℝ) (w h : ℕ) (px py : ℝ)
    (hpar : b.parent ≠ none) :
    (b.cacheValid zoom view_x view_y w h →
      b.update_orbit_surface zoom view_x view_y w h px py = b) ∧
    (¬ b.cacheValid zoom view_x view_y w h →
      (b.update_orbit_surface zoom view_x view_y w h px py).last_zoom = zoom ∧
      (b.update_orbit_surface zoom view_x view_y w h px py).last_width = w ∧
      (b.update_orbit_surface zoom view_x view_y w h px py).last_height = h ∧
      (b.update_orbit_surface zoom view_x view_y w h px py).last_view_x
        = view_x ∧
      (b.update_orbit_surface zoom view_x view_y w h px py).last_view_y
        = view_y ∧
      (b.update_orbit_surface zoom view_x view_y w h px py).orbit_surface.isSome
        = true) ∧
    ((b.update_orbit_surface zoom view_x view_y w h
        px py).update_orbit_surface zoom view_x view_y w h px py =
      b.update_orbit_surface zoom view_x view_y w h px py) := by
  refine ⟨fun hv =>
      CelestialBody.update_orbit_surface_of_valid b zoom view_x view_y w h
        px py hpar hv,
    fun hv => ?_, ?_⟩
  · obtain ⟨hz, hw, hh, hvx, hvy, hsurf, -, -⟩ :=
      CelestialBody.update_orbit_surface_of_invalid b zoom view_x view_y w h
        px py hpar hv
    exact ⟨hz, hw, hh, hvx, hvy, hsurf⟩
  · by_cases hv : b.cacheValid zoom view_x view_y w h
    · rw [CelestialBody.update_orbit_surface_of_valid b zoom view_x view_y
        w h px py hpar hv]
      exact CelestialBody.update_orbit_surface_of_valid b zoom view_x view_y
        w h px py hpar hv
    · obtain ⟨hz, hw, hh, hvx, hvy, hsurf, -, hparent⟩ :=
        CelestialBody.update_orbit_surface_of_invalid b zoom view_x view_y w h
          px py hpar hv
      have hrpar : (b.update_orbit_surface zoom view_x view_y w h
          px py).parent ≠ none := by
        rw [hparent]
        exact hpar
      have hrv : (b.update_orbit_surface zoom view_x view_y w h
          px py).cacheValid zoom view_x view_y w h := by
        refine ⟨hsurf, ?_, hw.symm, hh.symm, ?_, ?_⟩
        · rw [hz, sub_self, abs_zero]
          norm_num
        · rw [hvx, sub_self, abs_zero]
          norm_num
        · rw [hvy, sub_self, abs_zero]
          norm_num
      exact CelestialBody.update_orbit_surface_of_valid _ zoom view_x view_y
        w h px py hrpar hrv

/-- Witness for C5: on a concrete moon of a non-root parent, a repeated
call with the same camera leaves the rebuilt cache untouched. -/
theorem claim5_orbit_cache_protocol_witness :
    (sampleParent.update_orbit_surface 1 0 0 1200 800 0 0).update_orbit_surface
        1 0 0 1200 800 0 0 =
      sampleParent.update_orbit_surface 1 0 0 1200 800 0 0 :=
  (claim5_orbit_cache_protocol sampleParent 1 0 0 1200 800 0 0
    (by show (some 0 : Option ℕ) ≠ none; simp)).2.2

/-- Witness for the amended C7 on a steady one-star scene with
`time_factor = 0`. -/
theorem claim7_pause_or_zero_tf_freezes_witness :
    (frameStep true steadySystem = steadySystem) ∧
    (∃ b, steadySystem.update.bodies.get? 0 = some b ∧
      b.angle = c9Star.angle ∧ b.x = c9Star.x ∧ b.y = c9Star.y) :=
  ⟨(claim7_pause_or_zero_tf_freezes steadySystem).1,
   (claim7_pause_or_zero_tf_freezes steadySystem).2 rfl
     (by
       intro i b hb
       cases i with
       | zero =>
           have hbc : c9Star = b := Option.some.inj hb
           subst hbc
           refine ⟨⟨le_refl 0, by positivity⟩, fun _ => rfl, fun j hj => ?_⟩
           exact Option.noConfusion hj
       | succ n => exact Option.noConfusion hb)
     0 c9Star rfl⟩

end SolarSim
